import Mathlib

set_option linter.unusedVariables false

/-!
Verification of the git-ripper download pipeline (src/downloader.js,
src/archiver.js) and its checkpoint subsystem, against the design
specification.  The JavaScript is shallowly embedded: network and
filesystem effects are passed in explicitly as oracle values, machine
state (progress counter, failed-file list, accumulated byte count) is
threaded through explicit state records, and the concurrency behaviour
of the p-limit worker pool is modelled as a trace of start/finish
events with an executable admissibility checker.
-/

namespace GitRipper

/-- A single entry of the recursive git tree listing (downloader.js uses
only the path and type fields of each item). -/
structure TreeEntry where
  path : String
  type : String
deriving DecidableEq, Repr

/-- The repoInfo argument of downloadFolder: owner, repo, branch,
folderPath, as produced by parseGitHubUrl. -/
structure RepoInfo where
  owner : String
  repo : String
  branch : String
  folderPath : String
deriving DecidableEq, Repr

/-- The body of a successful tree-listing response: response.data.tree
and response.data.truncated. -/
structure TreeResponse where
  tree : List TreeEntry
  truncated : Bool
deriving DecidableEq, Repr

/-- The fields of an axios error response object that downloader.js
reads: error.response.status, error.response.data.message, and the two
rate-limit headers (the reset header is modelled post-rendering, since
the code formats it with Date/toLocaleTimeString). -/
structure HttpResponseErr where
  status : Nat
  dataMessage : Option String
  rateRemaining : Option String
  rateResetDisplay : String
deriving DecidableEq, Repr

/-- The three failure shapes downloader.js distinguishes on an axios
error: error.response present, error.request present (request sent, no
response), or neither. -/
inductive HttpFailure where
  | response : HttpResponseErr → HttpFailure
  | request : HttpFailure
  | other : HttpFailure
deriving DecidableEq, Repr

/-- An axios error: its own message plus the duck-typed failure shape. -/
structure AxiosError where
  message : String
  failure : HttpFailure
deriving DecidableEq, Repr

/-- JS String.prototype.startsWith: s begins with p.  Strings are
compared as their character sequences. -/
def strStartsWith (s p : String) : Bool :=
  p.data.isPrefixOf s.data

/-- JS String.prototype.endsWith: s ends with p. -/
def strEndsWith (s p : String) : Bool :=
  p.data.isSuffixOf s.data

/-- Whether s.trim() is the empty string: every character is
whitespace. -/
def strIsBlank (s : String) : Bool :=
  s.data.all fun c => c.isWhitespace

/-- JS s.substring(n): the string minus its first n characters. -/
def strDrop (s : String) (n : Nat) : String :=
  String.mk (s.data.drop n)

/-- JS s.length: the number of characters of s. -/
def strLen (s : String) : Nat :=
  s.data.length

/-- Accumulator loop of splitChar. -/
def splitCharAux (c : Char) : List Char → List Char → List String
  | [], cur => [String.mk cur.reverse]
  | ch :: rest, cur =>
    if ch = c then
      String.mk cur.reverse :: splitCharAux c rest []
    else
      splitCharAux c rest (ch :: cur)

/-- JS s.split(c) for a one-character separator: the segments of s
between occurrences of c, empty segments kept. -/
def splitChar (c : Char) (s : String) : List String :=
  splitCharAux c s.data []

/-- The tree-listing URL built at downloader.js line 49. -/
def treeApiUrl (owner repo branch : String) : String :=
  "https://api.github.com/repos/" ++ owner ++ "/" ++ repo ++ "/git/trees/"
    ++ branch ++ "?recursive=1"

/-- The raw-content URL built at downloader.js line 103. -/
def rawUrl (owner repo branch filePath : String) : String :=
  "https://raw.githubusercontent.com/" ++ owner ++ "/" ++ repo ++ "/"
    ++ branch ++ "/" ++ filePath

/-- The repository metadata endpoint that the specification names for
default-branch resolution (GET /repos/OWNER/REPO, whose body carries
default_branch).  Used only to compare the code against the spec; the
code under verification never requests it. -/
def repoMetadataUrl (owner repo : String) : String :=
  "https://api.github.com/repos/" ++ owner ++ "/" ++ repo

/-- The requests issued by one call of fetchFolderContents
(downloader.js lines 49-52): exactly one GET of the tree URL, with the
branch argument interpolated as given. -/
def fetchFolderRequests (owner repo branch : String) : List String :=
  [treeApiUrl owner repo branch]

/-- The truncation warning of downloader.js lines 56-59. -/
def truncatedWarning : String :=
  "Warning: The repository is too large and some files may be missing. "
    ++ "Consider using git clone for complete repositories."

/-- The 404 message of downloader.js line 79, carrying all four
coordinates. -/
def listingNotFoundMsg (owner repo branch folderPath : String) : String :=
  "Repository, branch, or folder not found: " ++ owner ++ "/" ++ repo
    ++ "/" ++ branch ++ "/" ++ folderPath

/-- The console.error text produced by the catch block of
fetchFolderContents (downloader.js lines 63-88), by failure shape. -/
def listingErrorMsg (owner repo branch folderPath : String)
    (e : AxiosError) : String :=
  match e.failure with
  | .response r =>
    if r.status == 403 then
      if r.rateRemaining == some "0" then
        "GitHub API rate limit exceeded. Please wait until "
          ++ r.rateResetDisplay
          ++ " or add a GitHub token (feature coming soon)."
      else
        "Access forbidden: " ++ (r.dataMessage.getD "Unknown reason")
    else if r.status == 404 then
      listingNotFoundMsg owner repo branch folderPath
    else
      "API error (" ++ toString r.status ++ "): "
        ++ (r.dataMessage.getD e.message)
  | .request =>
    "Network error: No response received from GitHub. Please check your internet connection."
  | .other =>
    "Error preparing request: " ++ e.message

/-- fetchFolderContents (downloader.js lines 48-91), with the remote
reply passed in as an oracle.  Returns the entry list the function
returns together with the console lines it emits.  On success it
filters the tree to entries whose path starts with folderPath; on any
axios error it logs a message and returns the empty list. -/
def fetchFolderContents (owner repo branch folderPath : String)
    (reply : Except AxiosError TreeResponse) :
    List TreeEntry × List String :=
  match reply with
  | .ok r =>
    ((r.tree.filter fun item => strStartsWith item.path folderPath),
     if r.truncated then [truncatedWarning] else [])
  | .error e =>
    ([], [listingErrorMsg owner repo branch folderPath e])

/-- Outcome object of downloadFile: filePath, success, optional error
message, size (the success object carries no error field, hence Option). -/
structure FileOutcome where
  filePath : String
  success : Bool
  error : Option String
  size : Nat
deriving DecidableEq, Repr

/-- Result of one fs.mkdirSync or fs.writeFileSync call: normal return
or a thrown error carrying a message. -/
inductive FsResult where
  | ok : FsResult
  | fail : String → FsResult
deriving DecidableEq, Repr

/-- The effect environment of one downloadFile call: the axios reply
(bytes on success, modelled as a byte list) and the results of the
directory-creation and file-write calls. -/
structure FileEnv where
  http : Except AxiosError (List Nat)
  mkdirResult : FsResult
  writeResult : FsResult
deriving Repr

/-- The error message computed by the catch block of downloadFile
(downloader.js lines 137-156): the 403/404/default switch when a
response is present, the no-response text when only a request exists,
and the raw error message otherwise. -/
def fileErrorMessage (e : AxiosError) : String :=
  match e.failure with
  | .response r =>
    if r.status == 403 then "Access forbidden (possibly rate limited)"
    else if r.status == 404 then "File not found"
    else "HTTP error " ++ toString r.status
  | .request => "No response from server"
  | .other => e.message

/-- downloadFile (downloader.js lines 102-165).  Fetches one raw file;
on success creates the parent directory and writes the bytes, turning
each filesystem error into a failed outcome; on HTTP failure returns a
failed outcome with the classified message.  Total: every path yields
an outcome, none raises. -/
def downloadFile (owner repo branch filePath outputPath : String)
    (env : FileEnv) : FileOutcome :=
  match env.http with
  | .error e =>
    { filePath := filePath, success := false
      error := some (fileErrorMessage e), size := 0 }
  | .ok data =>
    match env.mkdirResult with
    | .fail msg =>
      { filePath := filePath, success := false
        error := some ("Failed to create directory: " ++ msg), size := 0 }
    | .ok =>
      match env.writeResult with
      | .fail msg =>
        { filePath := filePath, success := false
          error := some ("Failed to write file: " ++ msg), size := 0 }
      | .ok =>
        { filePath := filePath, success := true
          error := none, size := data.length }

/-- The requests issued by one call of downloadFile (downloader.js
line 106): a single GET of the raw-content URL, with no retry on any
outcome. -/
def downloadFileRequests (owner repo branch filePath : String) :
    List String :=
  [rawUrl owner repo branch filePath]

/-- Removal of a single leading slash: the replace of
downloader.js line 273. -/
def stripLeadingSlash (s : String) : String :=
  if strStartsWith s "/" then strDrop s 1 else s

/-- The relative destination path of one entry (downloader.js lines
271-274): when folderPath is truthy and not blank after trim, the
entry path minus its first folderPath.length characters with one
leading slash removed; otherwise the entry path unchanged. -/
def relativePathOf (folderPath itemPath : String) : String :=
  if folderPath != "" && !(strIsBlank folderPath) then
    stripLeadingSlash (strDrop itemPath (strLen folderPath))
  else
    itemPath

/-- path.join of the output directory with a relative path, for the
slash-separated relative paths the pipeline produces (downloader.js
line 275). -/
def pathJoin (a b : String) : String :=
  if b == "" then a else a ++ "/" ++ b

/-- The run summary shape pinned by the specification and by the
repository test suite: success, filesDownloaded, failedFiles, isEmpty. -/
structure RunSummary where
  success : Bool
  filesDownloaded : Nat
  failedFiles : Nat
  isEmpty : Bool
deriving DecidableEq, Repr

/-- The mutable state of one downloadFolder run (downloader.js lines
258-260 and the progress bar value): accumulated byte count, the
failedFiles array of path/error pairs, and the progress counter. -/
structure PipelineState where
  downloadedSize : Nat
  failedFiles : List (String × String)
  progress : Nat
deriving DecidableEq, Repr

/-- Initial pipeline state: zero bytes, no failures, progress bar
started at 0 (downloader.js lines 258-266). -/
def initPipelineState : PipelineState :=
  { downloadedSize := 0, failedFiles := [], progress := 0 }

/-- The completion handler of one dispatched download (downloader.js
lines 279-295): on success the size is added to downloadedSize, on
failure the path/error pair is appended to failedFiles, and in either
branch the progress bar is incremented by exactly one. -/
def onFileComplete (st : PipelineState) (r : FileOutcome) :
    PipelineState :=
  let st1 :=
    if r.success then
      { st with downloadedSize := st.downloadedSize + r.size }
    else
      { st with failedFiles :=
          st.failedFiles ++ [(r.filePath, r.error.getD "")] }
  { st1 with progress := st1.progress + 1 }

/-- The console line of downloader.js line 231 / 241. -/
def noFilesMsg (folderPath : String) (onlyDirs : Bool) : String :=
  "No files found in "
    ++ (if folderPath == "" then "repository root" else folderPath)
    ++ (if onlyDirs then " (only directories)" else "")

/-- The console line of downloader.js line 246. -/
def downloadingMsg (n : Nat) (owner repo : String) : String :=
  "Downloading " ++ toString n ++ " files from " ++ owner ++ "/" ++ repo
    ++ "..."

/-- The completion report of downloader.js lines 320-334: a summary
line plus per-file detail when at most five files failed, or the
all-success line when none did. -/
def completionReport (succeeded : Nat)
    (failedFiles : List (String × String)) : List String :=
  if failedFiles.length > 0 then
    ("Downloaded " ++ toString succeeded ++ " files successfully, "
       ++ toString failedFiles.length ++ " files failed")
    :: (if failedFiles.length ≤ 5 then
          "Failed files:"
            :: failedFiles.map (fun f => "  - " ++ f.1 ++ ": " ++ f.2)
        else
          [toString failedFiles.length
             ++ " files failed to download. Check your connection or repository access."])
  else
    [" All " ++ toString succeeded ++ " files downloaded successfully!"]

/-- Everything observable about one completed downloadFolder run: the
value the function returns (the code returns undefined on every path,
so this is always none — the summary type exists to state what the
spec and the tests expect), the console log, and the final counters. -/
structure DownloadRun where
  retVal : Option RunSummary
  log : List String
  succeeded : Nat
  failed : Nat
  failedList : List (String × String)
  downloadedSize : Nat
  progress : Nat
deriving DecidableEq, Repr

/-- downloadFolder (downloader.js lines 224-340), with the listing
reply and the per-file effect environments passed in as oracles.  The
counting is order-insensitive (sums and multiset counts), so the fold
over results in listing order observes the same final counters as the
concurrent original; the in-flight behaviour itself is modelled
separately by the event-trace semantics below.  The dispatched
closure's own catch (lines 298-306) is unreachable because downloadFile
is total, so each result is processed by the success/failure branch
exactly once. -/
def downloadFolder (info : RepoInfo) (outputDir : String)
    (reply : Except AxiosError TreeResponse)
    (env : String → FileEnv) : DownloadRun :=
  let analyzing :=
    "Analyzing repository structure for " ++ info.owner ++ "/"
      ++ info.repo ++ "..."
  let fetched :=
    fetchFolderContents info.owner info.repo info.branch info.folderPath
      reply
  let contents := fetched.1
  let fetchLog := fetched.2
  if contents.isEmpty then
    { retVal := none
      log := analyzing :: fetchLog
        ++ [noFilesMsg info.folderPath false, "Folder cloned successfully!"]
      succeeded := 0, failed := 0, failedList := []
      downloadedSize := 0, progress := 0 }
  else
    let files := contents.filter fun item => item.type == "blob"
    if files.length == 0 then
      { retVal := none
        log := analyzing :: fetchLog
          ++ [noFilesMsg info.folderPath true, "Folder cloned successfully!"]
        succeeded := 0, failed := 0, failedList := []
        downloadedSize := 0, progress := 0 }
    else
      let results := files.map fun item =>
        downloadFile info.owner info.repo info.branch item.path
          (pathJoin outputDir (relativePathOf info.folderPath item.path))
          (env item.path)
      let st := results.foldl onFileComplete initPipelineState
      let succeeded := (results.filter fun r => r.success).length
      let failed := st.failedFiles.length
      { retVal := none
        log := analyzing :: fetchLog
          ++ [downloadingMsg files.length info.owner info.repo]
          ++ completionReport succeeded st.failedFiles
          ++ ["Folder cloned successfully!"]
        succeeded := succeeded, failed := failed
        failedList := st.failedFiles
        downloadedSize := st.downloadedSize, progress := st.progress }

/-- The blob entries a run operates on: the listing filtered to the
requested path (by fetchFolderContents) and then to blob type
(downloader.js line 237). -/
def blobEntries (info : RepoInfo)
    (reply : Except AxiosError TreeResponse) : List TreeEntry :=
  ((fetchFolderContents info.owner info.repo info.branch info.folderPath
      reply).1).filter fun item => item.type == "blob"

/-- The module-level concurrency bound of downloader.js line 13:
const limit = pLimit(5).  It is fixed at module scope; downloadFolder
takes no concurrency option. -/
def limitConcurrency : Nat := 5

/-- The concurrency bound governing one downloadFolder run.  The
dispatch at downloader.js line 277 wraps every fetch in the shared
module-level limiter, so the bound is the same constant for every run
regardless of the run's arguments. -/
def downloadRunBound (info : RepoInfo) (outputDir : String) : Nat :=
  limitConcurrency

/-- One scheduling event of the worker pool: task i starts (its fetch
goes in flight) or task i finishes (its completion handler runs). -/
inductive FEvent where
  | start : Nat → FEvent
  | finish : Nat → FEvent
deriving DecidableEq, Repr

/-- Whether an event is a completion. -/
def isFinish : FEvent → Bool
  | .finish _ => true
  | .start _ => false

/-- Admissibility of one event given the pool state, under bound n and
task count N: p-limit starts a task only when fewer than n are in
flight, each task starts at most once, and only an in-flight task can
finish. -/
def stepOk (n N : Nat) (running done : List Nat) : FEvent → Bool
  | .start i =>
    decide (i < N) && decide (running.length < n)
      && !(decide (i ∈ running)) && !(decide (i ∈ done))
  | .finish i => decide (i ∈ running)

/-- Pool-state transition for one event. -/
def stepState (running done : List Nat) : FEvent → List Nat × List Nat
  | .start i => (i :: running, done)
  | .finish i => (running.erase i, i :: done)

/-- Admissibility of a whole event trace from a given pool state. -/
def validFrom (n N : Nat) (running done : List Nat) :
    List FEvent → Bool
  | [] => true
  | e :: rest =>
    stepOk n N running done e
      && validFrom n N (stepState running done e).1
           (stepState running done e).2 rest

/-- The pool state after a trace. -/
def replay (running done : List Nat) : List FEvent → List Nat × List Nat
  | [] => (running, done)
  | e :: rest =>
    replay (stepState running done e).1 (stepState running done e).2 rest

/-- The pipeline state after a trace: each finish event runs the
completion handler of downloader.js lines 279-295 on that task's
outcome (start events touch no shared state). -/
def applyEvents (outcomes : Nat → FileOutcome) (st : PipelineState) :
    List FEvent → PipelineState
  | [] => st
  | .start _ :: rest => applyEvents outcomes st rest
  | .finish i :: rest =>
    applyEvents outcomes (onFileComplete st (outcomes i)) rest

/-- The default archive base name of archiver.js lines 179-181:
folderPath's last slash-separated segment when folderPath is truthy,
else the repo; a falsy (empty) segment falls back to the repo; then
dash and owner. -/
def archiveDefaultBase (info : RepoInfo) : String :=
  let folderName :=
    if info.folderPath != "" then
      (splitChar '/' info.folderPath).getLastD ""
    else info.repo
  (if folderName == "" then info.repo else folderName) ++ "-" ++ info.owner

/-- The archive file name computed by downloadAndArchive (archiver.js
lines 176-187): the custom name when one is given (JS truthiness, so
the empty string counts as absent), otherwise the default base name;
the format extension is appended when missing. -/
def archiveFileNameOf (info : RepoInfo) (archiveName : Option String)
    (fmt : String) : String :=
  let base :=
    match archiveName with
    | some n => if n == "" then archiveDefaultBase info else n
    | none => archiveDefaultBase info
  if strEndsWith base ("." ++ fmt) then base else base ++ "." ++ fmt

/-- The effect environment of one downloadAndArchive call: the
Date.now() stamp naming the temporary directory, the oracles of the
inner downloadFolder run, and the resolve/reject outcome of
createArchive itself (its stream, format and filesystem checks). -/
structure ArchiveEnv where
  tempStamp : Nat
  downloadReply : Except AxiosError TreeResponse
  fileEnv : String → FileEnv
  createArchiveResult : Except String Unit

/-- The temporary download directory of archiver.js line 169. -/
def archiveTempDir (outputDir : String) (stamp : Nat) : String :=
  pathJoin outputDir (".temp-" ++ toString stamp)

/-- The downloadFolder run performed inside downloadAndArchive
(archiver.js line 174).  Its result is awaited but never inspected. -/
def downloadAndArchiveRun (info : RepoInfo) (outputDir : String)
    (env : ArchiveEnv) : DownloadRun :=
  downloadFolder info (archiveTempDir outputDir env.tempStamp)
    env.downloadReply env.fileEnv

/-- downloadAndArchive (archiver.js lines 153-215): downloads into the
temporary directory, then unconditionally proceeds to create the
archive — no field of the download outcome is consulted — returning
the archive path on success and wrapping any archive error.  The
finally-block cleanup of the temporary directory is a pure filesystem
effect with no bearing on the returned value and is not modelled. -/
def downloadAndArchive (info : RepoInfo) (outputDir : String)
    (archiveFormat : String) (archiveName : Option String)
    (compressionLevel : Nat) (env : ArchiveEnv) : Except String String :=
  let run := downloadAndArchiveRun info outputDir env
  let archivePath :=
    pathJoin outputDir (archiveFileNameOf info archiveName archiveFormat)
  match env.createArchiveResult with
  | .ok _ => .ok archivePath
  | .error msg => .error ("Failed to create archive: " ++ msg)

/-- Modelled from the spec: the checkpoint record of §3 (resumeManager.js
is not under src/, only its test is).  Identity and size recorded at
creation, membership lists, the path-to-hash map, and the
last-mutation timestamp. -/
structure Checkpoint where
  url : String
  outputDir : String
  totalFiles : Nat
  downloadedFiles : List String
  failedFiles : List String
  fileHashes : List (String × String)
  timestamp : Nat
deriving DecidableEq, Repr

/-- A lower-case hexadecimal digit. -/
def hexDigit (n : Nat) : Char :=
  if n < 10 then Char.ofNat (48 + n) else Char.ofNat (87 + n)

/-- A natural number rendered as exactly twelve hexadecimal digits
(most significant first, taken modulo 16^12). -/
def toHex12 (n : Nat) : String :=
  String.mk ((List.range 12).map fun i => hexDigit (n / 16 ^ (11 - i) % 16))

/-- Modelled from the spec: the deterministic checkpoint identity of
§3/§4.4 — a digest of the source URL and the output directory,
rendered as a fixed-length opaque 12-character string, the same pair
always yielding the same id (resumeManager.js is not under src/).  A
concrete 48-bit polynomial string digest stands in for the digest the
missing code uses. -/
def generateCheckpointId (url outputDir : String) : String :=
  toHex12 ((url ++ ":" ++ outputDir).foldl
    (fun h c => (h * 31 + c.toNat) % 16 ^ 12) 5381)

/-- Modelled from the spec: saveCheckpoint of §4.4 — persists the
checkpoint under its deterministic id, overwriting any prior state for
the same id, and returns the id (resumeManager.js is not under src/).
The persisted store is modelled as an id-keyed association list. -/
def saveCheckpoint (store : List (String × Checkpoint))
    (c : Checkpoint) : String × List (String × Checkpoint) :=
  let id := generateCheckpointId c.url c.outputDir
  (id, (id, c) :: store.filter fun p => p.1 != id)

/-- Splitting a list of outcomes by success: the success and failure
sublists together exhaust it. -/
theorem length_filter_success_add (l : List FileOutcome) :
    (l.filter fun r => r.success).length
      + (l.filter fun r => !r.success).length = l.length := by
  induction l with
  | nil => rfl
  | cons a t ih =>
    by_cases h : a.success = true <;>
      simp [List.filter_cons, h] <;> omega

/-- The completion handler appends to failedFiles exactly on failure,
so folding it over a result list grows failedFiles by the number of
failed outcomes. -/
theorem foldl_onFileComplete_failed (l : List FileOutcome)
    (st : PipelineState) :
    (l.foldl onFileComplete st).failedFiles.length
      = st.failedFiles.length + (l.filter fun r => !r.success).length := by
  induction l generalizing st with
  | nil => simp
  | cons a t ih =>
    by_cases h : a.success = true
    · simp [List.foldl_cons, List.filter_cons, h, ih, onFileComplete]
    · simp [List.foldl_cons, List.filter_cons, h, ih, onFileComplete]
      omega

/-- Claim C1: downloadFolder never returns the run summary object.  The
first conjunct shows the returned value is undefined (none) on every
path of every run; the second evaluates the pipeline on a listing that
contains only a tree entry and shows the run completes without error,
logging the no-files and success lines, with zero counts — but with no
summary value, where the claim (and the repository test suite) expect
the object with success true, filesDownloaded 0, failedFiles 0,
isEmpty true. -/
theorem downloadFolder_returns_no_summary :
    (∀ (info : RepoInfo) (outputDir : String)
       (reply : Except AxiosError TreeResponse) (env : String → FileEnv),
       (downloadFolder info outputDir reply env).retVal = none)
    ∧ downloadFolder ⟨"owner", "repo", "main", "dir"⟩ "out"
        (.ok ⟨[⟨"dir/subdir", "tree"⟩], false⟩)
        (fun _ => ⟨.ok [], .ok, .ok⟩)
      = { retVal := none
          log := ["Analyzing repository structure for owner/repo...",
                  "No files found in dir (only directories)",
                  "Folder cloned successfully!"]
          succeeded := 0, failed := 0, failedList := []
          downloadedSize := 0, progress := 0 } := by
  constructor
  · intro info outputDir reply env
    unfold downloadFolder
    set L := (fetchFolderContents info.owner info.repo info.branch
      info.folderPath reply).1 with hL
    by_cases h1 : L.isEmpty
    · simp only [h1]
      rfl
    · simp only [h1]
      by_cases h2 : ((L.filter fun item => item.type == "blob").length == 0)
      · simp only [h2]
        rfl
      · simp only [h2]
        rfl
  · decide

/-- Claim C2: a listing request failing with HTTP 404 does not abort
the run.  fetchFolderContents logs the not-found message (which does
carry owner, repo, branch and path) but returns the empty listing, and
downloadFolder then completes normally, printing the no-files line and
the final success line — it neither signals a failure nor stops before
reporting success. -/
theorem downloadFolder_listing_404_reports_success :
    downloadFolder ⟨"owner", "repo", "main", "dir"⟩ "out"
        (.error ⟨"Not Found", .response ⟨404, some "Not Found", none, ""⟩⟩)
        (fun _ => ⟨.ok [], .ok, .ok⟩)
      = { retVal := none
          log := ["Analyzing repository structure for owner/repo...",
                  "Repository, branch, or folder not found: owner/repo/main/dir",
                  "No files found in dir",
                  "Folder cloned successfully!"]
          succeeded := 0, failed := 0, failedList := []
          downloadedSize := 0, progress := 0 }
    ∧ fetchFolderContents "owner" "repo" "main" "dir"
        (.error ⟨"Not Found", .response ⟨404, some "Not Found", none, ""⟩⟩)
      = ([], ["Repository, branch, or folder not found: owner/repo/main/dir"]) := by
  constructor
  · decide
  · decide

/-- Claim C3 (amended): exact accounting.  For every run, the number
of successful outcomes plus the length of the failedFiles array equals
the number of blob entries of the filtered listing — each attempted
blob is counted exactly once as success or failure. -/
theorem downloadFolder_exact_accounting (info : RepoInfo)
    (outputDir : String) (reply : Except AxiosError TreeResponse)
    (env : String → FileEnv) :
    (downloadFolder info outputDir reply env).succeeded
      + (downloadFolder info outputDir reply env).failed
      = (blobEntries info reply).length := by
  unfold downloadFolder blobEntries
  set L := (fetchFolderContents info.owner info.repo info.branch
    info.folderPath reply).1 with hL
  by_cases h1 : L.isEmpty
  · have hnil : L = [] := by simpa using h1
    rw [if_pos h1, hnil]
    rfl
  · rw [if_neg h1]
    by_cases h2 : ((L.filter fun item => item.type == "blob").length == 0)
    · have hz : (L.filter fun item => item.type == "blob").length = 0 := by
        simpa using h2
      rw [if_pos h2]
      dsimp only
      omega
    · rw [if_neg h2]
      dsimp only
      rw [foldl_onFileComplete_failed]
      have hsplit := length_filter_success_add (List.map (fun item =>
        downloadFile info.owner info.repo info.branch item.path
          (pathJoin outputDir (relativePathOf info.folderPath item.path))
          (env item.path)) (L.filter fun item => item.type == "blob"))
      rw [← hL]
      simp only [initPipelineState, List.length_nil, Nat.zero_add,
        List.length_map] at hsplit ⊢
      omega

/-- Claim C3 counterexample: a run with one blob whose fetch gets no
response ends with failedFiles of length one, yet is still reported
successful — the final log line is the unconditional success message
and the function returns no success flag at all (retVal is none), so
success is not reported iff failedFiles is zero. -/
theorem downloadFolder_success_report_despite_failure :
    (downloadFolder ⟨"owner", "repo", "main", "dir"⟩ "out"
        (.ok ⟨[⟨"dir/a.txt", "blob"⟩], false⟩)
        (fun _ => ⟨.error ⟨"boom", .request⟩, .ok, .ok⟩)).failed = 1
    ∧ (downloadFolder ⟨"owner", "repo", "main", "dir"⟩ "out"
        (.ok ⟨[⟨"dir/a.txt", "blob"⟩], false⟩)
        (fun _ => ⟨.error ⟨"boom", .request⟩, .ok, .ok⟩)).retVal = none
    ∧ "Folder cloned successfully!"
        ∈ (downloadFolder ⟨"owner", "repo", "main", "dir"⟩ "out"
            (.ok ⟨[⟨"dir/a.txt", "blob"⟩], false⟩)
            (fun _ => ⟨.error ⟨"boom", .request⟩, .ok, .ok⟩)).log := by
  refine ⟨by decide, by decide, by decide⟩

/-- Claim C5: with an empty branch argument, fetchFolderContents
issues exactly one request — the recursive-tree request with the empty
branch interpolated into the URL — and never the repository metadata
lookup that would resolve the default branch. -/
theorem fetchFolderContents_empty_branch_no_default_resolution :
    fetchFolderRequests "owner" "repo" ""
      = ["https://api.github.com/repos/owner/repo/git/trees/?recursive=1"]
    ∧ repoMetadataUrl "owner" "repo" ∉ fetchFolderRequests "owner" "repo" ""
    ∧ (fetchFolderRequests "owner" "repo" "").length = 1 := by
  refine ⟨by decide, by decide, by decide⟩

/-- Claim C4: downloadFile never raises and classifies every failure.
Part one shows totality: every call returns an outcome, and every
unsuccessful outcome carries a message.  The remaining parts pin the
outcome for each failure class — filesystem errors from directory
creation or write, Forbidden (HTTP 403), NotFound (404), Unexpected
with the status in the message (other statuses), Transport (request
sent, no response) — and the last shows the function issues exactly
one request, never retrying. -/
theorem downloadFile_never_raises_and_classifies
    (owner repo branch fp out : String) (env : FileEnv) :
    ((downloadFile owner repo branch fp out env).success = true
       ∨ ((downloadFile owner repo branch fp out env).error.isSome = true
            ∧ (downloadFile owner repo branch fp out env).success = false))
    ∧ (∀ d m, env.http = .ok d → env.mkdirResult = .fail m →
        downloadFile owner repo branch fp out env
          = ⟨fp, false, some ("Failed to create directory: " ++ m), 0⟩)
    ∧ (∀ d m, env.http = .ok d → env.mkdirResult = .ok →
        env.writeResult = .fail m →
        downloadFile owner repo branch fp out env
          = ⟨fp, false, some ("Failed to write file: " ++ m), 0⟩)
    ∧ (∀ e r, env.http = .error e → e.failure = .response r →
        r.status = 403 →
        downloadFile owner repo branch fp out env
          = ⟨fp, false, some "Access forbidden (possibly rate limited)", 0⟩)
    ∧ (∀ e r, env.http = .error e → e.failure = .response r →
        r.status = 404 →
        downloadFile owner repo branch fp out env
          = ⟨fp, false, some "File not found", 0⟩)
    ∧ (∀ e r, env.http = .error e → e.failure = .response r →
        r.status ≠ 403 → r.status ≠ 404 →
        downloadFile owner repo branch fp out env
          = ⟨fp, false, some ("HTTP error " ++ toString r.status), 0⟩)
    ∧ (∀ e, env.http = .error e → e.failure = .request →
        downloadFile owner repo branch fp out env
          = ⟨fp, false, some "No response from server", 0⟩)
    ∧ downloadFileRequests owner repo branch fp
        = [rawUrl owner repo branch fp] := by
  obtain ⟨http, mk, wr⟩ := env
  refine ⟨?_, ?_, ?_, ?_, ?_, ?_, ?_, rfl⟩
  · cases http with
    | ok d =>
      cases mk with
      | ok =>
        cases wr with
        | ok => exact Or.inl rfl
        | fail m => exact Or.inr ⟨rfl, rfl⟩
      | fail m => exact Or.inr ⟨rfl, rfl⟩
    | error e => exact Or.inr ⟨rfl, rfl⟩
  · intro d m h1 h2
    cases h1
    cases h2
    rfl
  · intro d m h1 h2 h3
    cases h1
    cases h2
    cases h3
    rfl
  · intro e r h1 h2 h3
    cases h1
    obtain ⟨msg, f⟩ := e
    cases h2
    simp [downloadFile, fileErrorMessage, h3]
  · intro e r h1 h2 h3
    cases h1
    obtain ⟨msg, f⟩ := e
    cases h2
    simp [downloadFile, fileErrorMessage, h3]
  · intro e r h1 h2 h3 h4
    cases h1
    obtain ⟨msg, f⟩ := e
    cases h2
    simp [downloadFile, fileErrorMessage, h3, h4]
  · intro e h1 h2
    cases h1
    obtain ⟨msg, f⟩ := e
    cases h2
    rfl

/-- Witness for C4: the theorem applied to a 403 response environment
and to a failing-mkdir environment, evaluated on concrete inputs. -/
theorem downloadFile_never_raises_and_classifies_witness :
    downloadFile "o" "r" "b" "f" "out"
        ⟨.error ⟨"m", .response ⟨403, none, none, ""⟩⟩, .ok, .ok⟩
      = ⟨"f", false, some "Access forbidden (possibly rate limited)", 0⟩
    ∧ downloadFile "o" "r" "b" "f" "out" ⟨.ok [1, 2], .fail "denied", .ok⟩
      = ⟨"f", false, some ("Failed to create directory: " ++ "denied"), 0⟩ :=
  ⟨(downloadFile_never_raises_and_classifies "o" "r" "b" "f" "out"
      ⟨.error ⟨"m", .response ⟨403, none, none, ""⟩⟩, .ok, .ok⟩).2.2.2.1
      ⟨"m", .response ⟨403, none, none, ""⟩⟩ ⟨403, none, none, ""⟩ rfl rfl rfl,
   (downloadFile_never_raises_and_classifies "o" "r" "b" "f" "out"
      ⟨.ok [1, 2], .fail "denied", .ok⟩).2.1 [1, 2] "denied" rfl rfl⟩

/-- Admissibility is closed under taking prefixes of a trace. -/
theorem validFrom_take (n N : Nat) :
    ∀ (tr : List FEvent) (running done : List Nat) (k : Nat),
      validFrom n N running done tr = true →
      validFrom n N running done (tr.take k) = true := by
  intro tr
  induction tr with
  | nil =>
    intro running done k h
    simpa using h
  | cons e rest ih =>
    intro running done k h
    cases k with
    | zero => rfl
    | succ k =>
      simp only [List.take_succ_cons]
      simp only [validFrom, Bool.and_eq_true] at h ⊢
      exact ⟨h.1, ih _ _ _ h.2⟩

/-- Along any admissible trace the in-flight set never grows beyond
the bound: a start is admitted only below the bound and a finish only
shrinks the set. -/
theorem replay_running_le (n N : Nat) :
    ∀ (tr : List FEvent) (running done : List Nat),
      validFrom n N running done tr = true →
      running.length ≤ n →
      (replay running done tr).1.length ≤ n := by
  intro tr
  induction tr with
  | nil =>
    intro running done _ hle
    exact hle
  | cons e rest ih =>
    intro running done h hle
    simp only [validFrom, Bool.and_eq_true] at h
    cases e with
    | start i =>
      simp only [stepOk, Bool.and_eq_true, decide_eq_true_eq] at h
      exact ih _ _ h.2 h.1.1.1.2
    | finish i =>
      refine ih _ _ h.2 ?_
      calc (running.erase i).length
          ≤ running.length := (List.erase_sublist i running).length_le
        _ ≤ n := hle

/-- The finished-task list after a trace grows by exactly the number
of finish events. -/
theorem replay_done_length :
    ∀ (tr : List FEvent) (running done : List Nat),
      (replay running done tr).2.length
        = done.length + (tr.filter isFinish).length := by
  intro tr
  induction tr with
  | nil =>
    intro running done
    simp [replay]
  | cons e rest ih =>
    intro running done
    cases e with
    | start i => simp [replay, stepState, isFinish, List.filter_cons, ih]
    | finish i =>
      simp [replay, stepState, isFinish, List.filter_cons, ih]
      omega

/-- Invariant of admissible traces: the in-flight and finished task
indices stay pairwise distinct and below the task count. -/
theorem replay_invariant (n N : Nat) :
    ∀ (tr : List FEvent) (running done : List Nat),
      validFrom n N running done tr = true →
      (running ++ done).Nodup →
      (∀ i ∈ running ++ done, i < N) →
      ((replay running done tr).1 ++ (replay running done tr).2).Nodup
        ∧ ∀ i ∈ (replay running done tr).1 ++ (replay running done tr).2,
            i < N := by
  intro tr
  induction tr with
  | nil =>
    intro running done _ hn hb
    exact ⟨hn, hb⟩
  | cons e rest ih =>
    intro running done h hn hb
    simp only [validFrom, Bool.and_eq_true] at h
    obtain ⟨hok, hrest⟩ := h
    cases e with
    | start i =>
      simp only [stepOk, Bool.and_eq_true, Bool.not_eq_true',
        decide_eq_true_eq, decide_eq_false_iff_not] at hok
      obtain ⟨⟨⟨hiN, _⟩, hirun⟩, hidone⟩ := hok
      refine ih (i :: running) done hrest ?_ ?_
      · rw [List.cons_append, List.nodup_cons]
        refine ⟨?_, hn⟩
        rw [List.mem_append]
        rintro (hc | hc)
        · exact hirun hc
        · exact hidone hc
      · intro j hj
        rw [List.cons_append, List.mem_cons] at hj
        rcases hj with hj | hj
        · exact hj ▸ hiN
        · exact hb j hj
    | finish i =>
      simp only [stepOk, decide_eq_true_eq] at hok
      obtain ⟨hrn, hdn, hdisj⟩ := List.nodup_append.mp hn
      refine ih (running.erase i) (i :: done) hrest ?_ ?_
      · rw [List.nodup_middle, List.nodup_cons]
        constructor
        · rw [List.mem_append]
          rintro (hc | hc)
          · exact ((hrn.mem_erase_iff.mp hc).1) rfl
          · exact hdisj hok hc
        · exact hn.sublist ((List.erase_sublist i running).append_right done)
      · intro j hj
        rw [List.mem_append, List.mem_cons] at hj
        rcases hj with hj | hj | hj
        · exact hb j (List.mem_append.mpr (Or.inl (List.mem_of_mem_erase hj)))
        · exact hj ▸ hb i (List.mem_append.mpr (Or.inl hok))
        · exact hb j (List.mem_append.mpr (Or.inr hj))

/-- A duplicate-free list of naturals below N has at most N elements. -/
theorem nodup_lt_length_le (l : List Nat) (N : Nat) (hn : l.Nodup)
    (hb : ∀ i ∈ l, i < N) : l.length ≤ N := by
  have h1 : l.toFinset.card = l.length := List.toFinset_card_of_nodup hn
  have h2 : l.toFinset ⊆ Finset.range N := by
    intro x hx
    rw [List.mem_toFinset] at hx
    exact Finset.mem_range.mpr (hb x hx)
  calc l.length = l.toFinset.card := h1.symm
    _ ≤ (Finset.range N).card := Finset.card_le_card h2
    _ = N := Finset.card_range N

/-- The completion handler advances the progress counter by exactly
one, on success and on failure alike. -/
theorem onFileComplete_progress (st : PipelineState) (r : FileOutcome) :
    (onFileComplete st r).progress = st.progress + 1 := by
  unfold onFileComplete
  by_cases h : r.success = true
  · simp [h]
  · simp [h]

/-- The progress counter after any event sequence is the initial value
plus the number of finish events processed. -/
theorem applyEvents_progress (outcomes : Nat → FileOutcome) :
    ∀ (tr : List FEvent) (st : PipelineState),
      (applyEvents outcomes st tr).progress
        = st.progress + (tr.filter isFinish).length := by
  intro tr
  induction tr with
  | nil =>
    intro st
    simp [applyEvents]
  | cons e rest ih =>
    intro st
    cases e with
    | start i => simp [applyEvents, isFinish, List.filter_cons, ih]
    | finish i =>
      simp [applyEvents, isFinish, List.filter_cons, ih,
        onFileComplete_progress]
      omega

/-- Claim C6 (amended): along every admissible trace of a run's worker
pool, at every point at most limitConcurrency (= 5, the pLimit module
constant) fetches are simultaneously in flight. -/
theorem pipeline_in_flight_bounded (N : Nat) (tr : List FEvent) (k : Nat)
    (h : validFrom limitConcurrency N [] [] tr = true) :
    (replay [] [] (tr.take k)).1.length ≤ limitConcurrency :=
  replay_running_le limitConcurrency N (tr.take k) [] []
    (validFrom_take limitConcurrency N tr [] [] k h) (by simp)

/-- Witness for C6: a concrete admissible trace of three tasks,
bounded at its third prefix. -/
theorem pipeline_in_flight_bounded_witness :
    validFrom limitConcurrency 3 [] []
        [.start 0, .start 1, .finish 0, .start 2, .finish 1, .finish 2]
      = true
    ∧ (replay [] []
        (([.start 0, .start 1, .finish 0, .start 2, .finish 1, .finish 2] :
          List FEvent).take 3)).1.length ≤ limitConcurrency :=
  ⟨by decide, pipeline_in_flight_bounded 3
    [.start 0, .start 1, .finish 0, .start 2, .finish 1, .finish 2] 3
    (by decide)⟩

/-- Claim C6 counterexample: the concurrency bound is not supplied per
run — it is the module-level constant of downloader.js line 13, so two
runs differing in every argument are governed by the same bound 5, and
downloadFolder accepts no option that could change it. -/
theorem downloadRunBound_is_module_constant :
    downloadRunBound ⟨"a", "b", "c", "d"⟩ "outOne" = 5
    ∧ downloadRunBound ⟨"e", "f", "g", "h"⟩ "outTwo" = 5
    ∧ downloadRunBound ⟨"a", "b", "c", "d"⟩ "outOne"
        = downloadRunBound ⟨"e", "f", "g", "h"⟩ "outTwo" :=
  ⟨rfl, rfl, rfl⟩

/-- Claim C7: along every admissible trace, at every prefix the
progress counter equals the number of completed attempts so far (each
completion increments it exactly once, by the completion handler), it
never exceeds the number N of dispatched attempts, no attempt
completes twice, and when all N attempts have completed it equals N. -/
theorem progress_counter_exact (outcomes : Nat → FileOutcome) (N : Nat)
    (tr : List FEvent)
    (h : validFrom limitConcurrency N [] [] tr = true) :
    (∀ k, (applyEvents outcomes initPipelineState (tr.take k)).progress
        = ((tr.take k).filter isFinish).length
      ∧ (applyEvents outcomes initPipelineState (tr.take k)).progress ≤ N)
    ∧ ((replay [] [] tr).2).Nodup
    ∧ ((tr.filter isFinish).length = N →
        (applyEvents outcomes initPipelineState tr).progress = N) := by
  have hcount : ∀ k,
      (applyEvents outcomes initPipelineState (tr.take k)).progress
        = ((tr.take k).filter isFinish).length := by
    intro k
    rw [applyEvents_progress]
    simp [initPipelineState]
  have hboundk : ∀ k,
      (((tr.take k).filter isFinish)).length ≤ N := by
    intro k
    have hv := validFrom_take limitConcurrency N tr [] [] k h
    have hinv := replay_invariant limitConcurrency N (tr.take k) [] [] hv
      (by simp) (by simp)
    have hnd : ((replay [] [] (tr.take k)).2).Nodup :=
      (List.nodup_append.mp hinv.1).2.1
    have hbd : ∀ i ∈ (replay [] [] (tr.take k)).2, i < N := fun i hi =>
      hinv.2 i (List.mem_append.mpr (Or.inr hi))
    have hle := nodup_lt_length_le _ N hnd hbd
    have hdl := replay_done_length (tr.take k) [] []
    simp only [List.length_nil, Nat.zero_add] at hdl
    omega
  refine ⟨fun k => ⟨hcount k, ?_⟩, ?_, ?_⟩
  · rw [hcount k]
    exact hboundk k
  · have hinv := replay_invariant limitConcurrency N tr [] [] h
      (by simp) (by simp)
    exact (List.nodup_append.mp hinv.1).2.1
  · intro hN
    rw [applyEvents_progress]
    simp [initPipelineState, hN]

/-- Witness for C7: a concrete admissible trace of two tasks, with the
counter evaluated at its third prefix. -/
theorem progress_counter_exact_witness :
    validFrom limitConcurrency 2 [] []
        [.start 0, .finish 0, .start 1, .finish 1] = true
    ∧ (applyEvents (fun _ => ⟨"x", true, none, 3⟩) initPipelineState
        (([.start 0, .finish 0, .start 1, .finish 1] :
          List FEvent).take 3)).progress
        = ((([.start 0, .finish 0, .start 1, .finish 1] :
          List FEvent).take 3).filter isFinish).length :=
  ⟨by decide,
   ((progress_counter_exact (fun _ => ⟨"x", true, none, 3⟩) 2
      [.start 0, .finish 0, .start 1, .finish 1] (by decide)).1 3).1⟩

/-- Claim C8: the id saveCheckpoint returns is exactly the
deterministic function of the checkpoint's url and output directory —
so any two saves of checkpoints with the same pair, against any
stores, return the same id — and that id always has exactly twelve
characters. -/
theorem saveCheckpoint_id_deterministic_and_length
    (store : List (String × Checkpoint)) (c : Checkpoint) :
    (saveCheckpoint store c).1 = generateCheckpointId c.url c.outputDir
    ∧ ((saveCheckpoint store c).1).length = 12
    ∧ ∀ (store2 : List (String × Checkpoint)) (c2 : Checkpoint),
        c2.url = c.url → c2.outputDir = c.outputDir →
        (saveCheckpoint store2 c2).1 = (saveCheckpoint store c).1 := by
  refine ⟨rfl, ?_, ?_⟩
  · show (generateCheckpointId c.url c.outputDir).length = 12
    unfold generateCheckpointId toHex12
    simp [String.length]
  · intro store2 c2 h1 h2
    show generateCheckpointId c2.url c2.outputDir
        = generateCheckpointId c.url c.outputDir
    rw [h1, h2]

/-- Witness for C8: two saves of the same (url, outputDir) pair with
different stores, payloads and timestamps return the same 12-character
id. -/
theorem saveCheckpoint_id_witness :
    ((saveCheckpoint []
        ⟨"https://github.com/owner/repo/tree/main/dir", "/tmp/out",
         3, [], [], [], 0⟩).1).length = 12
    ∧ (saveCheckpoint []
        ⟨"https://github.com/owner/repo/tree/main/dir", "/tmp/out",
         3, ["a.txt"], ["b.txt"], [("a.txt", "h")], 9⟩).1
      = (saveCheckpoint []
          ⟨"https://github.com/owner/repo/tree/main/dir", "/tmp/out",
           3, [], [], [], 0⟩).1 :=
  ⟨(saveCheckpoint_id_deterministic_and_length []
      ⟨"https://github.com/owner/repo/tree/main/dir", "/tmp/out",
       3, [], [], [], 0⟩).2.1,
   (saveCheckpoint_id_deterministic_and_length []
      ⟨"https://github.com/owner/repo/tree/main/dir", "/tmp/out",
       3, [], [], [], 0⟩).2.2 []
      ⟨"https://github.com/owner/repo/tree/main/dir", "/tmp/out",
       3, ["a.txt"], ["b.txt"], [("a.txt", "h")], 9⟩ rfl rfl⟩

/-- Claim C9 (amended): the archive step consults no field of the
download outcome — whenever archive creation itself succeeds,
downloadAndArchive returns the archive path, whatever the download's
success and failure counts were. -/
theorem downloadAndArchive_ignores_download_outcome (info : RepoInfo)
    (outputDir archiveFormat : String) (archiveName : Option String)
    (compressionLevel : Nat) (env : ArchiveEnv)
    (h : env.createArchiveResult = .ok ()) :
    downloadAndArchive info outputDir archiveFormat archiveName
        compressionLevel env
      = .ok (pathJoin outputDir
          (archiveFileNameOf info archiveName archiveFormat)) := by
  unfold downloadAndArchive
  rw [h]

/-- Witness for C9: the theorem applied to a concrete run whose
download fetched nothing. -/
theorem downloadAndArchive_ignores_witness :
    downloadAndArchive ⟨"owner", "repo", "main", "dir"⟩ "out" "zip" none 6
        ⟨17, .ok ⟨[⟨"dir/sub", "tree"⟩], false⟩,
         (fun _ => ⟨.ok [], .ok, .ok⟩), .ok ()⟩
      = .ok "out/dir-owner.zip" := by
  have h := downloadAndArchive_ignores_download_outcome
    ⟨"owner", "repo", "main", "dir"⟩ "out" "zip" none 6
    ⟨17, .ok ⟨[⟨"dir/sub", "tree"⟩], false⟩,
     (fun _ => ⟨.ok [], .ok, .ok⟩), .ok ()⟩ rfl
  rw [h]
  rfl

/-- Claim C9 counterexample: a download-and-archive invocation whose
download reports zero files downloaded (tree-only listing) still
produces the archive, and one whose download reports a failed file
does too — the packaging step never refuses. -/
theorem downloadAndArchive_no_refusal :
    (downloadAndArchiveRun ⟨"owner", "repo", "main", "dir"⟩ "out"
        ⟨17, .ok ⟨[⟨"dir/sub", "tree"⟩], false⟩,
         (fun _ => ⟨.ok [], .ok, .ok⟩), .ok ()⟩).succeeded = 0
    ∧ downloadAndArchive ⟨"owner", "repo", "main", "dir"⟩ "out" "zip"
        none 6
        ⟨17, .ok ⟨[⟨"dir/sub", "tree"⟩], false⟩,
         (fun _ => ⟨.ok [], .ok, .ok⟩), .ok ()⟩
      = .ok "out/dir-owner.zip"
    ∧ (downloadAndArchiveRun ⟨"owner", "repo", "main", "dir"⟩ "out"
        ⟨17, .ok ⟨[⟨"dir/a.txt", "blob"⟩], false⟩,
         (fun _ => ⟨.error ⟨"boom", .request⟩, .ok, .ok⟩), .ok ()⟩).failed
      = 1
    ∧ downloadAndArchive ⟨"owner", "repo", "main", "dir"⟩ "out" "zip"
        none 6
        ⟨17, .ok ⟨[⟨"dir/a.txt", "blob"⟩], false⟩,
         (fun _ => ⟨.error ⟨"boom", .request⟩, .ok, .ok⟩), .ok ()⟩
      = .ok "out/dir-owner.zip" := by
  refine ⟨by decide, by rfl, by decide, by rfl⟩

/-- Claim C10 (amended): for a folder path that is non-empty and not
blank (the code's condition is folderPath.trim() nonempty, not mere
non-emptiness), the listing filter admits every entry whose path has
the folder path as a plain string prefix — sibling directories
included — and each admitted blob's destination is the output
directory joined with the entry path minus the folder path's length in
characters, with a single leading slash removed. -/
theorem subtree_filter_and_destination (p : String) (hp : p ≠ "")
    (hb : strIsBlank p = false) (owner repo branch outputDir : String)
    (r : TreeResponse) (e : TreeEntry) (he : e ∈ r.tree)
    (hpre : strStartsWith e.path p = true) :
    e ∈ (fetchFolderContents owner repo branch p (.ok r)).1
    ∧ pathJoin outputDir (relativePathOf p e.path)
        = pathJoin outputDir (stripLeadingSlash (strDrop e.path (strLen p))) := by
  constructor
  · unfold fetchFolderContents
    exact List.mem_filter.mpr ⟨he, hpre⟩
  · unfold relativePathOf
    have hc : (p != "" && !(strIsBlank p)) = true := by
      rw [hb, bne_iff_ne.mpr hp]
      rfl
    rw [if_pos hc]

/-- Witness for C10: requested path "dir", sibling entry "dir2/a.txt" —
the entry is admitted by the filter and written to out/2/a.txt. -/
theorem subtree_filter_and_destination_witness :
    (⟨"dir2/a.txt", "blob"⟩ : TreeEntry)
        ∈ (fetchFolderContents "owner" "repo" "main" "dir"
            (.ok ⟨[⟨"dir2/a.txt", "blob"⟩], false⟩)).1
    ∧ pathJoin "out" (relativePathOf "dir" "dir2/a.txt")
        = pathJoin "out"
            (stripLeadingSlash (strDrop "dir2/a.txt" (strLen "dir")))
    ∧ pathJoin "out" (relativePathOf "dir" "dir2/a.txt") = "out/2/a.txt" := by
  have h := subtree_filter_and_destination "dir" (by decide) (by decide)
    "owner" "repo" "main" "out" ⟨[⟨"dir2/a.txt", "blob"⟩], false⟩
    ⟨"dir2/a.txt", "blob"⟩ (by decide) (by decide)
  exact ⟨h.1, h.2, by decide⟩

/-- Claim C10 counterexample: a whitespace-only folder path is
non-empty, and entries with it as prefix are admitted, but the
destination keeps the full entry path — it is not the entry path minus
the folder path's length, because the code's strip condition tests the
trimmed path, not emptiness. -/
theorem blank_folder_path_destination_mismatch :
    (" " : String) ≠ ""
    ∧ strStartsWith " x.txt" " " = true
    ∧ pathJoin "out" (relativePathOf " " " x.txt") = "out/ x.txt"
    ∧ pathJoin "out" (stripLeadingSlash (strDrop " x.txt" (strLen " ")))
        = "out/x.txt"
    ∧ pathJoin "out" (relativePathOf " " " x.txt")
        ≠ pathJoin "out" (stripLeadingSlash (strDrop " x.txt" (strLen " "))) := by
  refine ⟨by decide, by decide, by decide, by decide, by decide⟩

end GitRipper
